import Mathlib

/-!
Shallow embedding of the moderation core of the CloudComments worker
(`src/index.ts`): spam scoring (`calculateSpamScore`), the comment-creation
handler (`app.post /api/comments/:siteKey/:postSlug`), the like and flag
handlers, and the `RateLimiter` durable object.

Conventions of the embedding:
* JS `number` values (timestamps in ms, counters, reputation) are `Int`;
  match counts are `Nat`.
* `Date.now()` is an explicit `now : Int` argument; a user's ISO
  `created_at` string is embedded as the millisecond value that
  `new Date(s).getTime()` yields.
* The regular expressions of `calculateSpamScore` are embedded as direct
  left-to-right scanners over the character list, counting non-overlapping
  global matches exactly as `String.prototype.match` with the `g` flag does
  for these concrete patterns.  Each scanner carries a fuel argument equal
  to the length of the remaining input; every step either advances one
  character or consumes a non-empty match, so the fuel never runs out.
* D1 statements are embedded as pure state transformations on records that
  hold exactly the rows the handler touches.
-/

namespace CloudComments

/-- `status` column of the `comments` table. -/
inductive Status where
  | pending
  | approved
  | spam
  | deleted
deriving DecidableEq, Repr

/-- The fields of the `users` row that the moderation core reads.
`created_at` is the epoch-millisecond value of the stored ISO string. -/
structure User where
  id : Int
  name : String
  email : String
  created_at : Int
  reputation : Int
deriving DecidableEq, Repr

/-- The fields of the `sites` row that the moderation core reads. -/
structure Site where
  id : Int
  webhook_url : Option String
  moderation_enabled : Bool
  auto_approve_threshold : Int
  spam_filter_enabled : Bool
  total_comments : Int
deriving DecidableEq, Repr

/-- JS `\w` character class: `[A-Za-z0-9_]`, used by the `\b` anchors. -/
def isWordChar (c : Char) : Bool :=
  (Char.ofNat 97 ≤ c && c ≤ Char.ofNat 122) ||
  (Char.ofNat 65 ≤ c && c ≤ Char.ofNat 90) ||
  (Char.ofNat 48 ≤ c && c ≤ Char.ofNat 57) ||
  c == Char.ofNat 95

/-- `[A-Z]`. -/
def isUpperAZ (c : Char) : Bool :=
  Char.ofNat 65 ≤ c && c ≤ Char.ofNat 90

/-- JS `\s` on the ASCII range (space, tab, LF, VT, FF, CR). -/
def isSpaceJS (c : Char) : Bool :=
  c == Char.ofNat 32 || c == Char.ofNat 9 || c == Char.ofNat 10 ||
  c == Char.ofNat 11 || c == Char.ofNat 12 || c == Char.ofNat 13

/-- ASCII lower-casing, as the `i` regex flag applies to the patterns here. -/
def lowerAscii (c : Char) : Char :=
  if isUpperAZ c then Char.ofNat (c.toNat + 32) else c

/-- Case-insensitive literal match at the head of `l`; on success returns
the remainder of `l` after the literal. -/
def matchLitCI : List Char → List Char → Option (List Char)
  | [], l => some l
  | _ :: _, [] => none
  | p :: ps, c :: cs => if lowerAscii c == lowerAscii p then matchLitCI ps cs else none

/-- Case-sensitive literal match at the head of `l`. -/
def matchLit : List Char → List Char → Option (List Char)
  | [], l => some l
  | _ :: _, [] => none
  | p :: ps, c :: cs => if c == p then matchLit ps cs else none

/-- The trailing `\b` of a word/phrase alternative: the next character is a
non-word character or the string ends. -/
def boundaryAfter : List Char → Bool
  | [] => true
  | c :: _ => !isWordChar c

/-- Try the alternatives of `\b(a1|a2|...)\b` in order at the current
position, demanding the trailing boundary, as the backtracking engine does. -/
def tryWordAlts (alts : List (List Char)) (l : List Char) : Option (List Char) :=
  match alts with
  | [] => none
  | a :: rest =>
    match matchLitCI a l with
    | some r => if boundaryAfter r then some r else tryWordAlts rest l
    | none => tryWordAlts rest l

/-- Scanner for `content.match(/\b(a1|a2|...)\b/gi).length`: `prevW` records
whether the previous character was a word character (the leading `\b`). -/
def countWordAltsGo (alts : List (List Char)) : Nat → Bool → List Char → Nat
  | 0, _, _ => 0
  | _ + 1, _, [] => 0
  | fuel + 1, prevW, c :: cs =>
    if prevW then
      countWordAltsGo alts fuel (isWordChar c) cs
    else
      match tryWordAlts alts (c :: cs) with
      | some r => countWordAltsGo alts fuel true r + 1
      | none => countWordAltsGo alts fuel (isWordChar c) cs

/-- Number of global matches of `\b(a1|a2|...)\b` with the `i` flag. -/
def countWordAlts (alts : List (List Char)) (l : List Char) : Nat :=
  countWordAltsGo alts l.length false l

/-- `/https?:\/\//` at the current position (the greedy `s?` tries the long
scheme first). -/
def matchScheme (l : List Char) : Option (List Char) :=
  match matchLit (String.toList "https://") l with
  | some r => some r
  | none => matchLit (String.toList "http://") l

/-- `/https?:\/\/[^\s]+/` at the current position: the scheme followed by at
least one non-space character, taken greedily. -/
def matchUrlAt (l : List Char) : Option (List Char) :=
  match matchScheme l with
  | none => none
  | some r =>
    match r with
    | [] => none
    | c :: _ => if isSpaceJS c then none else some (r.dropWhile (fun d => !isSpaceJS d))

/-- Scanner for `content.match(/https?:\/\/[^\s]+/g).length`. -/
def countUrlGo : Nat → List Char → Nat
  | 0, _ => 0
  | _ + 1, [] => 0
  | fuel + 1, c :: cs =>
    match matchUrlAt (c :: cs) with
    | some r => countUrlGo fuel r + 1
    | none => countUrlGo fuel cs

def countUrl (l : List Char) : Nat := countUrlGo l.length l

/-- Scanner for `content.match(/https?:\/\//g).length` (the `linkCount`). -/
def countSchemeGo : Nat → List Char → Nat
  | 0, _ => 0
  | _ + 1, [] => 0
  | fuel + 1, c :: cs =>
    match matchScheme (c :: cs) with
    | some r => countSchemeGo fuel r + 1
    | none => countSchemeGo fuel cs

def countScheme (l : List Char) : Nat := countSchemeGo l.length l

/-- Scanner for `content.match(/\b[A-Z]{5,}\b/g).length`: a match is a
maximal run of word characters consisting of at least five capitals, since
no `\b` can sit between two word characters. -/
def countCapsGo : Nat → Bool → List Char → Nat
  | 0, _, _ => 0
  | _ + 1, _, [] => 0
  | fuel + 1, prevW, c :: cs =>
    if !prevW && isUpperAZ c then
      let run := (c :: cs).takeWhile isUpperAZ
      let rest := (c :: cs).dropWhile isUpperAZ
      if 5 ≤ run.length && boundaryAfter rest then
        countCapsGo fuel true rest + 1
      else
        countCapsGo fuel (isWordChar c) cs
    else
      countCapsGo fuel (isWordChar c) cs

def countCaps (l : List Char) : Nat := countCapsGo l.length false l

/-- `/\b(viagra|cialis|casino|poker|loan|mortgage)\b/gi`. -/
def spamWords : List (List Char) :=
  [String.toList "viagra", String.toList "cialis", String.toList "casino",
   String.toList "poker", String.toList "loan", String.toList "mortgage"]

/-- `/\b(click here|buy now|limited offer|act now)\b/gi`. -/
def promoPhrases : List (List Char) :=
  [String.toList "click here", String.toList "buy now",
   String.toList "limited offer", String.toList "act now"]

/-- `calculateSpamScore(content, user)` from `src/index.ts`.  The source
reads `Date.now()` for the account-age rule; the embedding passes that
reading as the explicit argument `now`. -/
def calculateSpamScore (content : String) (user : User) (now : Int) : Int :=
  let l := content.toList
  let patternScore : Nat :=
    countWordAlts spamWords l * 10 + countWordAlts promoPhrases l * 10 +
    countUrl l * 10 + countCaps l * 10
  let score : Int := (patternScore : Int)
  let accountAge : Int := now - user.created_at
  let score := if accountAge < 24 * 60 * 60 * 1000 then score + 20 else score
  let score := if user.reputation < 10 then score + 15 else score
  let linkCount : Nat := countScheme l
  let score := if 2 < linkCount then score + (linkCount : Int) * 15 else score
  min score 100

/-- JS truthiness of an optional string column / env var (`undefined`,
`null` and the empty string are falsy). -/
def jsTruthy : Option String → Bool
  | none => false
  | some s => !(s == "")

/-- The webhook payload built at `src/index.ts:1687`,
`{event: 'comment.created', comment: {...}, timestamp}`, restricted to the
fields the claims observe. -/
structure WebhookEvent where
  event : String
  content : String
  status : Status
  author_name : String
  author_email : String
  post_slug : String
  post_title : String
deriving DecidableEq, Repr

/-- Everything the comment-creation handler writes, starting from the point
where the site row has been loaded (`src/index.ts:1632-1717`): the inserted
comment's `status` and `spam_score`, the site's `total_comments` after the
unconditional `UPDATE sites SET total_comments = total_comments + 1`, the
author's `reputation` after the conditional credit, and the list of webhook
messages pushed onto the queue. -/
structure CreateEffects where
  status : Status
  spam_score : Int
  total_comments : Int
  reputation : Int
  webhookEvents : List WebhookEvent
deriving DecidableEq, Repr

/-- The comment-creation handler `app.post('/api/comments/:siteKey/:postSlug')`
(`src/index.ts:1632-1717`), after authentication and site lookup succeeded.
`webhookSecret` is `c.env.WEBHOOK_SECRET`; `now` is the `Date.now()` reading
used by `calculateSpamScore`. -/
def createComment (webhookSecret : Option String) (site : Site) (author : User)
    (content : String) (postSlug postTitle : String) (now : Int) : CreateEffects :=
  let spamScore : Int :=
    if site.spam_filter_enabled then calculateSpamScore content author now else 0
  let status : Status :=
    if site.moderation_enabled then
      if site.auto_approve_threshold ≤ spamScore then Status.spam
      else if author.reputation < 10 then Status.pending
      else Status.approved
    else Status.approved
  { status := status
    spam_score := spamScore
    total_comments := site.total_comments + 1
    reputation := if status = Status.approved then author.reputation + 1 else author.reputation
    webhookEvents :=
      if jsTruthy site.webhook_url && jsTruthy webhookSecret then
        [{ event := "comment.created", content := content, status := status,
           author_name := author.name, author_email := author.email,
           post_slug := postSlug, post_title := postTitle }]
      else [] }

/-- The rows the like handler touches for one comment: the comment row
(`likes`, and `user_id` implicitly fixed), the `comment_likes` rows for this
comment (user ids), and the comment author's `users.reputation`. -/
structure LikeState where
  likes : Int
  likeRecords : List Int
  authorRep : Int
deriving DecidableEq, Repr

/-- The like handler `app.post('/api/comments/:id/like')`
(`src/index.ts:1747-1790`): if a `comment_likes` row for `(comment, user)`
exists, delete it and decrement `likes` (unlike); otherwise insert one,
increment `likes`, credit the comment's author `+1` reputation, and return
`{liked: true}`. -/
def likeComment (st : LikeState) (userId : Int) : Bool × LikeState :=
  if st.likeRecords.any (fun x => x == userId) then
    (false,
     { st with
        likeRecords := st.likeRecords.filter (fun x => !(x == userId))
        likes := st.likes - 1 })
  else
    (true,
     { likes := st.likes + 1
       likeRecords := st.likeRecords ++ [userId]
       authorRep := st.authorRep + 1 })

/-- Outcome of the flag handler: `{success: true}` or the 400 response
`You have already flagged this comment`. -/
inductive FlagOutcome where
  | success
  | alreadyFlagged
deriving DecidableEq, Repr

/-- The rows the flag handler touches for one comment: the comment row
(`status`, `flags`) and the `comment_flags` rows for this comment
(`user_id`, `reason`). -/
structure FlagState where
  status : Status
  flags : Int
  flagRecords : List (Int × String)
deriving DecidableEq, Repr

/-- The flag handler `app.post('/api/comments/:id/flag')`
(`src/index.ts:1793-1828`): reject a duplicate `(comment, user)` flag with a
400 error; otherwise insert the flag row, increment `flags`, re-read the
post-increment count and force `status = 'pending'` when it is `≥ 3`. -/
def flagComment (st : FlagState) (userId : Int) (reason : String) :
    FlagOutcome × FlagState :=
  if st.flagRecords.any (fun r => r.1 == userId) then
    (FlagOutcome.alreadyFlagged, st)
  else
    let flags := st.flags + 1
    (FlagOutcome.success,
     { status := if 3 ≤ flags then Status.pending else st.status
       flags := flags
       flagRecords := st.flagRecords ++ [(userId, reason)] })

namespace RateLimiter

/-- The `requests : Map<string, number[]>` of the `RateLimiter` durable
object, as an association list in insertion order (JS `Map` keys are
unique). -/
abbrev RequestMap : Type := List (String × List Int)

/-- `Map.get` with the `|| []` default at `src/index.ts:2530`. -/
def lookupD (key : String) (m : RequestMap) : List Int :=
  (List.lookup key m).getD []

/-- `Map.set`: replace the entry of an existing key in place, else append. -/
def mapSet (key : String) (v : List Int) : RequestMap → RequestMap
  | [] => [(key, v)]
  | (k, w) :: rest =>
    if k == key then (key, v) :: rest else (k, w) :: mapSet key v rest

/-- `cleanOldEntries` (`src/index.ts:2547-2557`): for every key keep only the
timestamps with `now - timestamp < 60000` and delete keys whose filtered
list is empty. -/
def cleanOldEntries (now : Int) : RequestMap → RequestMap
  | [] => []
  | (k, ts) :: rest =>
    let fts := ts.filter (fun t => now - t < 60000)
    if fts.isEmpty then cleanOldEntries now rest
    else (k, fts) :: cleanOldEntries now rest

/-- `RateLimiter.fetch` (`src/index.ts:2521-2545`) for `key`, with
`Date.now() = now`: clean all entries, filter the key's timestamps to the
last minute, answer 429 when 60 or more remain, else record `now` and answer
200.  Returns `(allowed?, new map)`. -/
def fetch (key : String) (now : Int) (m : RequestMap) : Bool × RequestMap :=
  let cleaned := cleanOldEntries now m
  let requests := lookupD key cleaned
  let recentRequests := requests.filter (fun t => now - t < 60000)
  if 60 ≤ recentRequests.length then
    (false, cleaned)
  else
    (true, mapSet key (recentRequests ++ [now]) cleaned)

/-- Run a sequence of `(now, fetch)` calls for one key, collecting the
allowed/denied answers. -/
def runCalls (key : String) : List Int → RequestMap → List Bool × RequestMap
  | [], m => ([], m)
  | t :: ts, m =>
    let r := fetch key t m
    let rest := runCalls key ts r.2
    (r.1 :: rest.1, rest.2)

end RateLimiter

/-- The sliding-window admission algorithm as the spec describes it for a
single key, amended at the window edge: a timestamp is dropped as soon as it
is 60 seconds old (`now - t ≥ 60000`), i.e. only strictly younger
timestamps are kept. -/
def SlidingWindowSpec.recent (now : Int) (l : List Int) : List Int :=
  l.filter (fun t => now - t < 60000)

/-- Spec-side admission decision: allowed iff fewer than 60 timestamps
remain in the window. -/
def SlidingWindowSpec.allowed (now : Int) (l : List Int) : Bool :=
  (SlidingWindowSpec.recent now l).length < 60

/-- Spec-side stored list after a call: a denied call is not recorded, an
allowed call appends `now`. -/
def SlidingWindowSpec.after (now : Int) (l : List Int) : List Int :=
  if 60 ≤ (SlidingWindowSpec.recent now l).length then SlidingWindowSpec.recent now l
  else SlidingWindowSpec.recent now l ++ [now]

/-- The drop rule exactly as the claim words it: drop only the timestamps
strictly older than `now` minus 60 seconds, keeping one that is exactly 60
seconds old. -/
def SlidingWindowSpec.recentLiteral (now : Int) (l : List Int) : List Int :=
  l.filter (fun t => now - t ≤ 60000)

/-- Admission decision under the literal drop rule of the claim. -/
def SlidingWindowSpec.allowedLiteral (now : Int) (l : List Int) : Bool :=
  (SlidingWindowSpec.recentLiteral now l).length < 60

/-- Fixture: an author account created at epoch millisecond 0 with
reputation 0. -/
def exAuthor : User :=
  { id := 7, name := "ann", email := "ann@example.com", created_at := 0, reputation := 0 }

/-- Fixture: a site with moderation and the spam filter enabled,
`auto_approve_threshold = 30`, a webhook URL, and 7 comments so far. -/
def exSite : Site :=
  { id := 1, webhook_url := some "https://hooks.example.com/x",
    moderation_enabled := true, auto_approve_threshold := 30,
    spam_filter_enabled := true, total_comments := 7 }

/-- Fixture: a comment already carrying 2 flags from users 1 and 2. -/
def exFlagState : FlagState :=
  { status := Status.spam, flags := 2, flagRecords := [(1, "abuse"), (2, "abuse")] }

/-- Fixture: a comment with 4 likes (from user 5) whose author has
reputation 9. -/
def exLikeState : LikeState :=
  { likes := 4, likeRecords := [5], authorRep := 9 }

theorem filter_ne_append_self (l : List Int) (u : Int)
    (h : l.any (fun x => x == u) = false) :
    (l ++ [u]).filter (fun x => !(x == u)) = l := by
  rw [List.filter_append]
  have h2 : [u].filter (fun x => !(x == u)) = [] := by simp
  rw [h2, List.append_nil]
  rw [List.filter_eq_self]
  intro a ha
  have := List.any_eq_false.mp h a ha
  simpa using this

namespace RateLimiter

theorem lookup_cleanOldEntries_of_forall (now : Int) (key : String) :
    ∀ m : RequestMap, (∀ p ∈ m, p.1 ≠ key) →
      List.lookup key (cleanOldEntries now m) = none := by
  intro m
  induction m with
  | nil => intro _; rfl
  | cons p rest ih =>
    intro h
    obtain ⟨k, ts⟩ := p
    have hk : k ≠ key := h (k, ts) (List.mem_cons_self _ _)
    have hk' : (key == k) = false := by
      simp only [beq_eq_false_iff_ne]
      exact fun e => hk e.symm
    have ih' := ih (fun q hq => h q (List.mem_cons_of_mem _ hq))
    by_cases he : (ts.filter (fun t => now - t < 60000)).isEmpty
    · simp only [cleanOldEntries, he, if_true]
      exact ih'
    · simp only [cleanOldEntries, he, if_false, List.lookup, hk']
      exact ih'

/-- Per-key view of `cleanOldEntries`: with the JS-`Map` invariant of
pairwise distinct keys, cleaning the whole map filters each key's list. -/
theorem lookupD_cleanOldEntries (now : Int) (key : String) :
    ∀ m : RequestMap, (m.map Prod.fst).Nodup →
      lookupD key (cleanOldEntries now m) =
        (lookupD key m).filter (fun t => now - t < 60000) := by
  intro m
  induction m with
  | nil => intro _; rfl
  | cons p rest ih =>
    intro h
    obtain ⟨k, ts⟩ := p
    have hnd : (rest.map Prod.fst).Nodup := (List.nodup_cons.mp h).2
    by_cases hk : k = key
    · subst hk
      have hnotin : ∀ q ∈ rest, q.1 ≠ k := by
        intro q hq he
        exact (List.nodup_cons.mp h).1 (List.mem_map.mpr ⟨q, hq, he⟩)
      by_cases he : (ts.filter (fun t => now - t < 60000)).isEmpty
      · have hfil : ts.filter (fun t => now - t < 60000) = [] :=
          List.isEmpty_iff.mp he
        simp only [cleanOldEntries, he, if_true, lookupD, List.lookup,
          beq_self_eq_true, if_true,
          lookup_cleanOldEntries_of_forall now k rest hnotin]
        simp [hfil]
      · simp only [cleanOldEntries, he, if_false, lookupD, List.lookup,
          beq_self_eq_true, if_true]
        simp
    · have hk' : (key == k) = false := by
        simp only [beq_eq_false_iff_ne]
        exact fun e => hk e.symm
      have ih' := ih hnd
      by_cases he : (ts.filter (fun t => now - t < 60000)).isEmpty
      · simpa only [cleanOldEntries, he, if_true, lookupD, List.lookup, hk',
          if_false] using ih'
      · simpa only [cleanOldEntries, he, if_false, lookupD, List.lookup, hk',
          if_false] using ih'

theorem lookup_mapSet_self (key : String) (v : List Int) :
    ∀ m : RequestMap, List.lookup key (mapSet key v m) = some v := by
  intro m
  induction m with
  | nil => simp [mapSet, List.lookup]
  | cons p rest ih =>
    obtain ⟨k, w⟩ := p
    by_cases hk : k = key
    · simp [mapSet, hk, List.lookup]
    · have hk1 : (k == key) = false := by simp [beq_eq_false_iff_ne, hk]
      have hk2 : (key == k) = false := by
        simp only [beq_eq_false_iff_ne]
        exact fun e => hk e.symm
      simp only [mapSet, hk1, if_false, List.lookup, hk2]
      exact ih

theorem filter_idem (p : Int → Bool) (l : List Int) :
    (l.filter p).filter p = l.filter p := by
  induction l with
  | nil => rfl
  | cons a l ih =>
    cases h : p a <;> simp [List.filter, h, ih]

end RateLimiter

set_option maxRecDepth 40000

/-- C1: for every comment submission, the assigned status follows the
first-match decision order — with the spam filter disabled the score is
treated as 0; with moderation disabled the status is approved
unconditionally; otherwise a score at or above `auto_approve_threshold`
yields spam, an author reputation below 10 yields pending, and anything
else yields approved. -/
theorem createComment_status_follows_decision_order
    (ws : Option String) (site : Site) (author : User) (content : String)
    (slug title : String) (now : Int) :
    (createComment ws site author content slug title now).status =
      (let score : Int :=
        if site.spam_filter_enabled then calculateSpamScore content author now else 0
       if site.moderation_enabled = false then Status.approved
       else if score ≥ site.auto_approve_threshold then Status.spam
       else if author.reputation < 10 then Status.pending
       else Status.approved) := by
  cases hm : site.moderation_enabled <;> simp [createComment, hm, ge_iff_le]

/-- C2 counterexample: with 60 timestamps recorded exactly 60 seconds ago,
the code admits the next request (it drops timestamps that are 60 seconds
old), while the claimed drop rule — drop only timestamps strictly older
than `now` minus 60 seconds — would keep all 60 and deny it.  So the
claimed algorithm, as stated, is not the one `RateLimiter.fetch`
implements. -/
theorem rateLimiter_drop_rule_cex :
    (RateLimiter.fetch "k" 60000 [("k", List.replicate 60 (0:Int))]).1 = true ∧
    SlidingWindowSpec.allowedLiteral 60000
      (RateLimiter.lookupD "k" [("k", List.replicate 60 (0:Int))]) = false := by
  exact ⟨by decide, by decide⟩

/-- C2 (amended): for every key the rate limiter implements the 60-second
sliding window with capacity 60, where a timestamp is dropped once it is at
least 60 seconds old; a denied call records nothing, an allowed call
appends `now`.  Consequently 60 calls for one key within 1 second are all
allowed, the 61st within the same window is denied, and a call past 60
seconds after the first is allowed again. -/
theorem rateLimiter_sliding_window (m : RateLimiter.RequestMap) (key : String)
    (now : Int) (h : (m.map Prod.fst).Nodup) :
    ((RateLimiter.fetch key now m).1 =
        SlidingWindowSpec.allowed now (RateLimiter.lookupD key m) ∧
      RateLimiter.lookupD key (RateLimiter.fetch key now m).2 =
        SlidingWindowSpec.after now (RateLimiter.lookupD key m)) ∧
    (RateLimiter.runCalls "k" (List.map Int.ofNat (List.range 60)) []).1 =
      List.replicate 60 true ∧
    (RateLimiter.fetch "k" 60
      (RateLimiter.runCalls "k" (List.map Int.ofNat (List.range 60)) []).2).1 = false ∧
    (RateLimiter.fetch "k" 60001
      (RateLimiter.runCalls "k" (List.map Int.ofNat (List.range 60)) []).2).1 = true := by
  refine ⟨?_, by decide, by decide, by decide⟩
  have hclean := RateLimiter.lookupD_cleanOldEntries now key m h
  simp only [RateLimiter.fetch, hclean, RateLimiter.filter_idem,
    SlidingWindowSpec.allowed, SlidingWindowSpec.after, SlidingWindowSpec.recent]
  split
  · next h60 =>
    exact ⟨by simp [Nat.not_lt.mpr h60], hclean⟩
  · next h60 =>
    have h60' :
        (List.filter (fun t => now - t < 60000) (RateLimiter.lookupD key m)).length < 60 :=
      Nat.lt_of_not_le h60
    refine ⟨by simp [h60'], ?_⟩
    simp only [RateLimiter.lookupD, RateLimiter.lookup_mapSet_self, Option.getD_some]

/-- C2 witness: the sliding-window theorem applied to the one-key map
`{k ↦ [0]}` at time 5. -/
theorem rateLimiter_sliding_window_witness :
    (([("k", [(0:Int)])] : RateLimiter.RequestMap).map Prod.fst).Nodup ∧
    (RateLimiter.fetch "k" 5 [("k", [(0:Int)])]).1 =
      SlidingWindowSpec.allowed 5 (RateLimiter.lookupD "k" [("k", [(0:Int)])]) :=
  ⟨by decide, ((rateLimiter_sliding_window [("k", [(0:Int)])] "k" 5 (by decide)).1).1⟩

/-- C3 counterexample: for the end-to-end example — author created 2 hours
ago with reputation 0, content with one URL and the phrase `buy now`,
moderation and spam filter on, threshold 30 — the stored spam score is not
30: the code also adds 10 for the URL pattern match and 15 for reputation
below 10. -/
theorem spam_example_score_not_30 :
    (createComment none exSite exAuthor "buy now http://x.com" "post-1" "Post"
      7200000).spam_score ≠ 30 := by
  decide

/-- C3 (amended): in that same scenario the computed spam score is 55
(10 for the promotional phrase, 10 for the URL pattern, 20 for the young
account, 15 for low reputation), the status is spam, and the author is
credited no reputation. -/
theorem spam_example_scores_55_and_spam :
    (createComment none exSite exAuthor "buy now http://x.com" "post-1" "Post"
      7200000).spam_score = 55 ∧
    (createComment none exSite exAuthor "buy now http://x.com" "post-1" "Post"
      7200000).status = Status.spam ∧
    (createComment none exSite exAuthor "buy now http://x.com" "post-1" "Post"
      7200000).reputation = exAuthor.reputation := by
  refine ⟨by decide, by decide, by decide⟩

/-- C4 counterexample: the spam scorer is not a function of `(content,
author)` alone — it reads the clock for the account-age rule, so the same
content and author score 35 one hour after account creation but 15 more
than a day later. -/
theorem calculateSpamScore_clock_dependent :
    calculateSpamScore "" exAuthor 3600000 ≠ calculateSpamScore "" exAuthor 90000000 := by
  decide

/-- C4 (amended): the spam scorer is a pure function of `(content,
author.created_at, author.reputation, now)`: it is deterministic and
ignores every other author field; only the `Date.now()` reading is an input
beyond the claimed pair. -/
theorem calculateSpamScore_pure_in_profile (content : String) (u v : User) (now : Int)
    (hc : u.created_at = v.created_at) (hr : u.reputation = v.reputation) :
    calculateSpamScore content u now = calculateSpamScore content v now := by
  obtain ⟨ui, un, ue, uc, ur⟩ := u
  obtain ⟨vi, vn, ve, vc, vr⟩ := v
  cases hc
  cases hr
  rfl

/-- C4 witness: two authors differing in id, name and email but agreeing on
`created_at` and `reputation` get the same score. -/
theorem calculateSpamScore_pure_in_profile_witness :
    exAuthor.created_at =
      ({ id := 9, name := "bob", email := "b@c", created_at := 0, reputation := 0 } : User).created_at ∧
    calculateSpamScore "hello" exAuthor 7200000 =
      calculateSpamScore "hello"
        { id := 9, name := "bob", email := "b@c", created_at := 0, reputation := 0 } 7200000 :=
  ⟨rfl, calculateSpamScore_pure_in_profile "hello" exAuthor
    { id := 9, name := "bob", email := "b@c", created_at := 0, reputation := 0 }
    7200000 rfl rfl⟩

/-- C5 counterexample: a creation whose assigned status is spam still
increments the site's `total_comments` counter — the `UPDATE sites SET
total_comments = total_comments + 1` is unconditional. -/
theorem total_comments_incremented_on_spam_cex :
    (createComment none exSite exAuthor "" "post-1" "Post" 7200000).status = Status.spam ∧
    (createComment none exSite exAuthor "" "post-1" "Post" 7200000).total_comments ≠
      exSite.total_comments := by
  refine ⟨by decide, by decide⟩

/-- C5 (amended): on every comment creation the site's `total_comments`
counter is incremented by 1 regardless of the assigned status, while the +1
reputation credit to the author happens exactly when the status is
approved. -/
theorem createComment_counter_effects
    (ws : Option String) (site : Site) (author : User) (content : String)
    (slug title : String) (now : Int) :
    (createComment ws site author content slug title now).total_comments =
      site.total_comments + 1 ∧
    (createComment ws site author content slug title now).reputation =
      (if (createComment ws site author content slug title now).status = Status.approved
       then author.reputation + 1 else author.reputation) := by
  exact ⟨rfl, rfl⟩

/-- C6: an accepted flag that brings the post-increment flag count to 3
forces the status to pending regardless of the current status, while an
approved comment whose accepted flag only brings the count to 2 stays
approved. -/
theorem flagComment_threshold_forces_pending (st : FlagState) (u : Int) (reason : String)
    (h : st.flagRecords.any (fun r => r.1 == u) = false) :
    (flagComment st u reason).1 = FlagOutcome.success ∧
    ((flagComment st u reason).2.flags = 3 →
      (flagComment st u reason).2.status = Status.pending) ∧
    (st.status = Status.approved → (flagComment st u reason).2.flags = 2 →
      (flagComment st u reason).2.status = Status.approved) := by
  refine ⟨by simp [flagComment, h], ?_, ?_⟩
  · intro h3
    simp only [flagComment, h, Bool.false_eq_true, if_false] at h3 ⊢
    have h31 : (3:Int) ≤ st.flags + 1 := by omega
    simp [h31]
  · intro ha h2
    simp only [flagComment, h, Bool.false_eq_true, if_false] at h2 ⊢
    have h21 : ¬ ((3:Int) ≤ st.flags + 1) := by omega
    simp [h21, ha]

/-- C6 witness: user 3 flags the fixture comment (2 existing flags, status
spam); the post-increment count 3 forces pending. -/
theorem flagComment_threshold_forces_pending_witness :
    exFlagState.flagRecords.any (fun r => r.1 == 3) = false ∧
    ((flagComment exFlagState 3 "off-topic").2.flags = 3 →
      (flagComment exFlagState 3 "off-topic").2.status = Status.pending) :=
  ⟨by decide, (flagComment_threshold_forces_pending exFlagState 3 "off-topic" (by decide)).2.1⟩

/-- C7: a first flag by a user succeeds, a second flag of the same comment
by the same user is rejected as a duplicate and leaves the state unchanged,
and across the two calls `flags` increments by exactly 1. -/
theorem flagComment_duplicate_rejected (st : FlagState) (u : Int) (r1 r2 : String)
    (h : st.flagRecords.any (fun r => r.1 == u) = false) :
    (flagComment st u r1).1 = FlagOutcome.success ∧
    (flagComment (flagComment st u r1).2 u r2).1 = FlagOutcome.alreadyFlagged ∧
    (flagComment (flagComment st u r1).2 u r2).2 = (flagComment st u r1).2 ∧
    (flagComment st u r1).2.flags = st.flags + 1 := by
  have hdup : ((st.flagRecords ++ [(u, r1)]).any (fun r => r.1 == u)) = true := by
    simp [List.any_append]
  simp [flagComment, h, hdup]

/-- C7 witness: user 5 flags the fixture comment twice. -/
theorem flagComment_duplicate_rejected_witness :
    exFlagState.flagRecords.any (fun r => r.1 == 5) = false ∧
    (flagComment (flagComment exFlagState 5 "spam").2 5 "spam again").1 =
      FlagOutcome.alreadyFlagged :=
  ⟨by decide, (flagComment_duplicate_rejected exFlagState 5 "spam" "spam again"
    (by decide)).2.1⟩

/-- C8 counterexample: toggling a like twice does not return the state to
what it was before the first call — the author keeps the +1 reputation
credited by the first call. -/
theorem likeComment_double_toggle_state_cex :
    (likeComment (likeComment exLikeState 8).2 8).2 ≠ exLikeState := by
  decide

/-- C8 (amended): for a user who has not yet liked the comment, calling the
like toggle twice returns `liked = false` on the second call and restores
the likes count and the like records, but leaves the author's reputation
exactly 1 higher — the full state is not restored. -/
theorem likeComment_toggle_roundtrip (st : LikeState) (u : Int)
    (h : st.likeRecords.any (fun x => x == u) = false) :
    (likeComment st u).1 = true ∧
    (likeComment (likeComment st u).2 u).1 = false ∧
    (likeComment (likeComment st u).2 u).2.likes = st.likes ∧
    (likeComment (likeComment st u).2 u).2.likeRecords = st.likeRecords ∧
    (likeComment (likeComment st u).2 u).2.authorRep = st.authorRep + 1 := by
  have hdup : ((st.likeRecords ++ [u]).any (fun x => x == u)) = true := by
    simp [List.any_append]
  simp [likeComment, h, hdup, filter_ne_append_self st.likeRecords u h]

/-- C8 witness: user 8 toggles the fixture comment twice; the second call
answers `liked = false` and the likes count is back to 4. -/
theorem likeComment_toggle_roundtrip_witness :
    exLikeState.likeRecords.any (fun x => x == 8) = false ∧
    (likeComment (likeComment exLikeState 8).2 8).1 = false :=
  ⟨by decide, (likeComment_toggle_roundtrip exLikeState 8 (by decide)).2.1⟩

/-- C9: a like followed by an unlike leaves the comment author's reputation
exactly 1 higher than before the pair, even though the likes count is back
to its original value. -/
theorem likeComment_like_unlike_reputation (st : LikeState) (u : Int)
    (h : st.likeRecords.any (fun x => x == u) = false) :
    (likeComment st u).1 = true ∧
    (likeComment (likeComment st u).2 u).1 = false ∧
    (likeComment (likeComment st u).2 u).2.authorRep = st.authorRep + 1 ∧
    (likeComment (likeComment st u).2 u).2.likes = st.likes := by
  have hdup : ((st.likeRecords ++ [u]).any (fun x => x == u)) = true := by
    simp [List.any_append]
  simp [likeComment, h, hdup]

/-- C9 witness: user 2 likes and unlikes the fixture comment; the author's
reputation went from 9 to 10 and stays there. -/
theorem likeComment_like_unlike_reputation_witness :
    exLikeState.likeRecords.any (fun x => x == 2) = false ∧
    (likeComment (likeComment exLikeState 2).2 2).2.authorRep = exLikeState.authorRep + 1 :=
  ⟨by decide, (likeComment_like_unlike_reputation exLikeState 2 (by decide)).2.2.1⟩

/-- C10: whenever the site has a (non-empty) webhook URL and the webhook
secret is configured, a successfully created comment enqueues exactly the
`comment.created` event carrying the assigned status — for pending and spam
comments just as for approved ones. -/
theorem createComment_webhook_regardless_of_status
    (ws : Option String) (site : Site) (author : User)
    (content slug title : String) (now : Int)
    (hu : jsTruthy site.webhook_url = true) (hs : jsTruthy ws = true) :
    (createComment ws site author content slug title now).webhookEvents ≠ [] ∧
    ∀ e ∈ (createComment ws site author content slug title now).webhookEvents,
      e.event = "comment.created" ∧
      e.status = (createComment ws site author content slug title now).status := by
  simp only [createComment, hu, hs, Bool.and_self, if_true]
  constructor
  · exact List.cons_ne_nil _ _
  · intro e he
    rw [List.mem_singleton] at he
    subst he
    exact ⟨rfl, rfl⟩

/-- C10 witness: on the fixture site with a secret configured, a creation
whose status is spam still enqueues the webhook event. -/
theorem createComment_webhook_regardless_of_status_witness :
    jsTruthy exSite.webhook_url = true ∧
    jsTruthy (some "hunter2") = true ∧
    (createComment (some "hunter2") exSite exAuthor "" "post-1" "Post" 7200000).status =
      Status.spam ∧
    (createComment (some "hunter2") exSite exAuthor "" "post-1" "Post" 7200000).webhookEvents ≠
      [] :=
  ⟨by decide, by decide, by decide,
    (createComment_webhook_regardless_of_status (some "hunter2") exSite exAuthor ""
      "post-1" "Post" 7200000 (by decide) (by decide)).1⟩

end CloudComments
